import Mathlib

/-!
Verification development for the VRse FBX batch exporter
(`src/vrse_fbx_exporter/VRseFbx_BatchExporter.py`).

The Python add-on is shallowly embedded: filesystem paths become a drive
string plus a leaf-first component list (so `os.path.dirname` is `List.tail`
and `os.path.join` is `cons`); the filesystem and the host FBX exporter
become boolean oracles carried in a `World` record; Blender collections and
layer collections become mutually inductive trees; the operator state
(selection, active object, exported-file list) becomes an explicit `St`
record threaded through the translated functions, with `self.report` calls
collected in a returned message list.
-/

set_option autoImplicit false

namespace VRseFbx

/-! ## Paths and the filesystem world -/

/-- A filesystem path: `drive` is the Windows drive component
(`os.path.splitdrive(path)[0]`, the empty string on platforms without drive
letters) and `comps` is the list of path components stored leaf-first, so
that `os.path.dirname` drops the head.  The empty component list stands for
the base of the path (the directory part exhausted), whose Python rendering
is falsy when the drive is empty. -/
structure Path where
  drive : String
  comps : List String
deriving DecidableEq, Repr

/-- `os.path.dirname`. -/
def Path.dirname (p : Path) : Path := ⟨p.drive, p.comps.tail⟩

/-- `os.path.join p s`. -/
def Path.join (p : Path) (s : String) : Path := ⟨p.drive, s :: p.comps⟩

/-- `os.path.basename`. -/
def Path.basename (p : Path) : String := p.comps.headD ""

/-- Python truthiness of the rendered path string: it is nonempty iff the
drive or the component list is nonempty. -/
def Path.truthy (p : Path) : Bool := !(p.drive == "") || !p.comps.isEmpty

/-- Rendering of a path back into a string (used in error messages). -/
def Path.render (p : Path) : String :=
  p.drive ++ String.join (p.comps.reverse.map (fun c => "/" ++ c))

/-- Message of `check_path_exists` when the drive is missing. -/
def driveMsg (d : String) : String :=
  "Drive " ++ d ++ " does not exist or is not accessible."

/-- Message of `check_path_exists` when a path is not accessible. -/
def pathMsg (p : Path) : String :=
  "Path " ++ p.render ++ " is not accessible."

/-- Message raised as `PermissionError` and friends inside
`ensure_directory_exists`. -/
def permMsg (p : Path) : String :=
  "Permission denied: Cannot create directory " ++ p.render

/-- The recursion of `check_path_exists`, structural on the leaf-first
component list (each recursive call moves to `os.path.dirname`).  `ex` is
the `os.path.exists` oracle and `w` tells whether `platform.system()`
returned `"Windows"`.  In the `[]` case the Python parent is the path
itself; the guard `if parent_dir and not os.path.exists(parent_dir)` can
then only hold for a drive-only path, which on Windows was already caught
by the drive branch, so the model returns the not-accessible message
directly (matching Python everywhere Python terminates). -/
def checkPathAux (ex : Path → Bool) (w : Bool) (d : String) : List String → Bool × String
  | [] =>
    if ex ⟨d, []⟩ then (true, "")
    else if w && !(d == "") && !(ex ⟨d, []⟩) then (false, driveMsg d)
    else (false, pathMsg ⟨d, []⟩)
  | c :: tl =>
    if ex ⟨d, c :: tl⟩ then (true, "")
    else if w && !(d == "") && !(ex ⟨d, []⟩) then (false, driveMsg d)
    else if Path.truthy ⟨d, tl⟩ && !(ex ⟨d, tl⟩) then checkPathAux ex w d tl
    else (false, pathMsg ⟨d, c :: tl⟩)

/-- `check_path_exists(path)` of the Python source: returns
`(exists, message)`. -/
def check_path_exists (ex : Path → Bool) (w : Bool) (p : Path) : Bool × String :=
  checkPathAux ex w p.drive p.comps

/-- The ancestor at which the upward recursion of `check_path_exists`
stops: climb to `dirname` while the parent is truthy and does not exist. -/
def climbPath (ex : Path → Bool) (d : String) : List String → List String
  | [] => []
  | c :: tl =>
    if Path.truthy ⟨d, tl⟩ && !(ex ⟨d, tl⟩) then climbPath ex d tl
    else c :: tl

/-- The ambient effectful collaborators of the add-on: the filesystem
existence oracle, whether `os.makedirs` succeeds for a directory (false
models the `PermissionError` and sibling `OSError`s caught in
`ensure_directory_exists`), and whether `bpy.ops.export_scene.fbx` succeeds
for an output file (false models the exception caught in `export_fbx`). -/
structure World where
  ex : Path → Bool
  permitted : Path → Bool
  exportOk : Path → Bool

/-- `os.makedirs(p, exist_ok=True)` on success: `p` and all its ancestors
now exist. -/
def makedirs (wd : World) (p : Path) : World :=
  { wd with ex := fun q => wd.ex q || (q.drive == p.drive && q.comps.isSuffixOf p.comps) }

/-- `ensure_directory_exists(directory_path)` of the Python source:
returns `((success, message), world)`. -/
def ensure_directory_exists (plat : Bool) (wd : World) (p : Path) : (Bool × String) × World :=
  let r := check_path_exists wd.ex plat p.dirname
  if r.1 = false then ((false, r.2), wd)
  else if wd.ex p = true then ((true, ""), wd)
  else if wd.permitted p = true then ((true, ""), makedirs wd p)
  else ((false, permMsg p), wd)

/-! ## Scene model -/

/-- Blender object kinds, as tested by `obj.type` (`'LIGHT'` is what the
`export_lamp` checkbox adds). -/
inductive ObjType where
  | MESH | EMPTY | CAMERA | LIGHT | ARMATURE | OTHER
deriving DecidableEq, Repr, BEq

/-- A scene object: Blender object names are unique per scene. -/
structure Obj where
  name : String
  ty : ObjType
  hide_viewport : Bool
deriving DecidableEq, Repr, BEq

mutual
/-- A Blender collection: name (unique among collections in Blender),
collection-level `hide_viewport`, direct member objects and child
collections. -/
inductive Collection : Type where
  | mk (name : String) (hide_viewport : Bool) (objects : List Obj) (children : CollList)
/-- List of child collections (a separate mutual type so that every
traversal below is structurally recursive). -/
inductive CollList : Type where
  | nil
  | cons (c : Collection) (cs : CollList)
end

def Collection.name : Collection → String
  | .mk n _ _ _ => n

def Collection.hide_viewport : Collection → Bool
  | .mk _ h _ _ => h

def Collection.objects : Collection → List Obj
  | .mk _ _ o _ => o

def Collection.children : Collection → CollList
  | .mk _ _ _ c => c

def CollList.isNil : CollList → Bool
  | .nil => true
  | .cons _ _ => false

def CollList.toList : CollList → List Collection
  | .nil => []
  | .cons c cs => c :: cs.toList

/-- Names of the direct children (used for the by-identity membership
tests that Python does on collection objects; collection names are unique
in Blender, so name equality is collection identity). -/
def CollList.names : CollList → List String
  | .nil => []
  | .cons c cs => c.name :: cs.names

def Collection.child_names (c : Collection) : List String := c.children.names

mutual
/-- `collection.all_objects`: all objects in the subtree. -/
def Collection.all_objects : Collection → List Obj
  | .mk _ _ objs children => objs ++ children.all_objects
def CollList.all_objects : CollList → List Obj
  | .nil => []
  | .cons c cs => c.all_objects ++ cs.all_objects
end

mutual
/-- A view-layer collection link: per-link `hide_viewport`, the linked
collection, and the child links. -/
inductive LayerColl : Type where
  | mk (hide_viewport : Bool) (collection : Collection) (children : LayerList)
/-- List of child layer-collection links. -/
inductive LayerList : Type where
  | nil
  | cons (lc : LayerColl) (ls : LayerList)
end

def LayerColl.hide_viewport : LayerColl → Bool
  | .mk h _ _ => h

def LayerColl.collection : LayerColl → Collection
  | .mk _ c _ => c

def LayerColl.children : LayerColl → LayerList
  | .mk _ _ ls => ls

/-- The visibility test of the walk in `gather_top_level_collections`:
`not layer_coll.hide_viewport and not layer_coll.collection.hide_viewport`. -/
def layerVisible (lc : LayerColl) : Bool :=
  !lc.hide_viewport && !lc.collection.hide_viewport

mutual
/-- `recurse_layer_coll(layer_coll, parent_coll)` inside
`gather_top_level_collections`: returns the visible collections added to
`all_visible` and the `(child, parent)` entries written to
`child_to_parent` (keyed by collection name, standing for collection
identity).  The walk descends into children unconditionally, passing the
current collection as parent. -/
def recurse_layer_coll (lc : LayerColl) (parent : Option String) :
    List Collection × List (String × String) :=
  match lc with
  | .mk h c children =>
    let vis := !h && !c.hide_viewport
    let here := if vis then [c] else []
    let entries :=
      if vis then
        match parent with
        | some pn => [(c.name, pn)]
        | none => ([] : List (String × String))
      else []
    let rest := recurse_layer_list children (some c.name)
    (here ++ rest.1, entries ++ rest.2)
def recurse_layer_list (ls : LayerList) (parent : Option String) :
    List Collection × List (String × String) :=
  match ls with
  | .nil => ([], [])
  | .cons lc rest =>
    let a := recurse_layer_coll lc parent
    let b := recurse_layer_list rest parent
    (a.1 ++ b.1, a.2 ++ b.2)
end

/-- `gather_top_level_collections(context)`: the visible collections of the
view-layer walk that have no recorded parent.  `roots` is
`context.view_layer.layer_collection.children`. -/
def gather_top_level_collections (roots : LayerList) : List Collection :=
  let r := recurse_layer_list roots none
  r.1.filter (fun c => !(r.2.any (fun e => e.1 == c.name)))

/-- Edges `(parent, child)` between a visible link and its visible child
links, below one node: the parent-child edges of the visibility-filtered
collection graph rooted at `lc`'s children. -/
def visibleChildEdges (pn : String) : LayerList → List (String × String)
  | .nil => []
  | .cons lc rest =>
    (if layerVisible lc then [(pn, lc.collection.name)] else []) ++ visibleChildEdges pn rest

mutual
/-- All edges of the visibility-filtered collection graph in the subtree
of `lc`: an edge links a visible layer collection to each of its visible
child links. -/
def filteredEdges (lc : LayerColl) : List (String × String) :=
  match lc with
  | .mk h c children =>
    (if !h && !c.hide_viewport then visibleChildEdges c.name children else []) ++
      edgesOfList children
def edgesOfList (ls : LayerList) : List (String × String) :=
  match ls with
  | .nil => []
  | .cons lc rest => filteredEdges lc ++ edgesOfList rest
end

/-- All edges of the visibility-filtered collection graph of the view
layer. -/
def forestEdges (roots : LayerList) : List (String × String) := edgesOfList roots

/-- `b` is a visible child of `a` somewhere in the filtered graph. -/
def descEdge (roots : LayerList) (a b : String) : Prop := (a, b) ∈ forestEdges roots

/-! ## Operator configuration and state -/

inductive ExportMode where
  | COLLECTIONS | SELECTED
deriving DecidableEq, Repr

inductive Smoothing where
  | EDGE | FACE | OFF
deriving DecidableEq, Repr

/-- The persisted UI options (`VRseFbxExporterProperties`) read by the
operator; one immutable record per run. -/
structure Props where
  export_mode : ExportMode
  separate_child_collections : Bool
  combine_nested_collections : Bool
  as_single_mesh : Bool
  make_separate_folders : Bool
  export_empty : Bool
  export_camera : Bool
  export_lamp : Bool
  export_armature : Bool
  export_mesh : Bool
  export_other : Bool
  embed_textures : Bool
  export_animations : Bool
  export_smoothing : Smoothing
  apply_unit : Bool
  use_space_transform : Bool
  apply_transform : Bool
  apply_modifiers : Bool
  axis_forward : String
  axis_up : String
  apply_scale_options : String
deriving Repr

/-- `get_object_types(context)`: the allowed object kinds, from the
checkboxes. -/
def get_object_types (props : Props) : List ObjType :=
  (if props.export_empty then [ObjType.EMPTY] else []) ++
  (if props.export_camera then [ObjType.CAMERA] else []) ++
  (if props.export_lamp then [ObjType.LIGHT] else []) ++
  (if props.export_armature then [ObjType.ARMATURE] else []) ++
  (if props.export_mesh then [ObjType.MESH] else []) ++
  (if props.export_other then [ObjType.OTHER] else [])

/-- The parameter record marshalled into `bpy.ops.export_scene.fbx` by
`export_fbx` (the float `global_scale=1.0` constant is omitted; every other
keyword of the call is a field). -/
structure FbxParams where
  check_existing : Bool
  use_selection : Bool
  object_types : List ObjType
  bake_anim : Bool
  bake_anim_use_all_bones : Bool
  bake_anim_use_all_actions : Bool
  use_armature_deform_only : Bool
  bake_space_transform : Bool
  mesh_smooth_type : Smoothing
  add_leaf_bones : Bool
  embed_textures : Bool
  path_mode : String
  axis_forward : String
  axis_up : String
  apply_unit_scale : Bool
  use_space_transform : Bool
  apply_scale_options : String
  use_mesh_modifiers : Bool
deriving DecidableEq, Repr

/-- The `ex_object_types` set and keyword arguments built inside
`export_fbx` (lines 328-386 of the source). -/
def export_fbx_params (props : Props) : FbxParams :=
  { check_existing := false
    use_selection := true
    object_types :=
      (if props.export_mesh then [ObjType.MESH] else []) ++
      (if props.export_armature || props.export_animations then [ObjType.ARMATURE] else []) ++
      (if props.export_empty then [ObjType.EMPTY] else []) ++
      (if props.export_camera then [ObjType.CAMERA] else []) ++
      (if props.export_lamp then [ObjType.LIGHT] else []) ++
      (if props.export_other then [ObjType.OTHER] else [])
    bake_anim := props.export_animations
    bake_anim_use_all_bones := props.export_animations
    bake_anim_use_all_actions := props.export_animations
    use_armature_deform_only := true
    bake_space_transform := props.apply_transform
    mesh_smooth_type := props.export_smoothing
    add_leaf_bones := false
    embed_textures := props.embed_textures
    path_mode := if props.embed_textures then "COPY" else "AUTO"
    axis_forward := props.axis_forward
    axis_up := props.axis_up
    apply_unit_scale := props.apply_unit
    use_space_transform := props.use_space_transform
    apply_scale_options := props.apply_scale_options
    use_mesh_modifiers := props.apply_modifiers }

/-- The mutable state threaded through a run: the effectful world, the
run-scoped `exported_files` list (display name, absolute path), the scene
selection and active object, the objects of the active view layer, and an
observability trace of the host-exporter invocations
`(filepath, selected objects, success)`. -/
structure St where
  world : World
  exported_files : List (String × Path)
  selected : List Obj
  active : Option Obj
  view_objs : List Obj
  trace : List (Path × List Obj × Bool)

/-- `export_fbx(self, context, filepath, objects)`: returns the success
flag, the new state, and the `self.report` messages emitted. -/
def export_fbx (props : Props) (plat : Bool) (st : St) (filepath : Path)
    (objects : List Obj) : Bool × St × List String :=
  if objects.isEmpty then (false, st, [])
  else
    let _params := export_fbx_params props
    let r := ensure_directory_exists plat st.world filepath.dirname
    if r.1.1 = false then (false, st, [r.1.2])
    else
      let st1 : St := { st with world := r.2 }
      let valid := objects.filter (fun o => st1.view_objs.contains o)
      let st2 : St :=
        { st1 with
          selected := valid
          active := match valid with | [] => st1.active | o :: _ => some o }
      if st2.world.exportOk filepath then
        (true,
         { st2 with
           exported_files := st2.exported_files ++ [(filepath.basename, filepath)]
           trace := st2.trace ++ [(filepath, valid, true)] },
         [])
      else
        (false,
         { st2 with trace := st2.trace ++ [(filepath, valid, false)] },
         ["Error exporting to " ++ filepath.render])

mutual
/-- `gather_all_objects_recursive(collection, allowed_types)`: direct
members passing the kind and visibility filter, then the children,
depth-first. -/
def gather_all_objects_recursive (collection : Collection) (allowed : List ObjType) : List Obj :=
  match collection with
  | .mk _ _ objs children =>
    objs.filter (fun o => allowed.contains o.ty && !o.hide_viewport) ++
      gather_all_objects_list children allowed
/-- The loop of `gather_all_objects_recursive` over child collections. -/
def gather_all_objects_list (cl : CollList) (allowed : List ObjType) : List Obj :=
  match cl with
  | .nil => []
  | .cons c cs => gather_all_objects_recursive c allowed ++ gather_all_objects_list cs allowed
end

mutual
/-- `export_collection_recursive(self, context, collection, parent_dir,
allowed_types, create_subfolder)`: returns the export count, the new
state, and the report messages.  The folder-preparation tuple `pre` is
`(ok, folder, state, messages)`; a failed `ensure_directory_exists` with
`create_subfolder` reports the error and skips this collection. -/
def export_collection_recursive (props : Props) (plat : Bool) (st : St)
    (collection : Collection) (parent_dir : Path) (allowed : List ObjType)
    (create_subfolder : Bool) : Nat × St × List String :=
  match collection with
  | .mk cname chide cobjs cchildren =>
    let pre : Bool × Path × St × List String :=
      if create_subfolder then
        let coll_folder := parent_dir.join cname
        let r := ensure_directory_exists plat st.world coll_folder
        if r.1.1 = false then (false, coll_folder, st, [r.1.2])
        else (true, coll_folder, { st with world := r.2 }, [])
      else (true, parent_dir, st, [])
    if pre.1 = false then (0, pre.2.2.1, pre.2.2.2)
    else
      let coll_folder := pre.2.1
      let st0 := pre.2.2.1
      if props.combine_nested_collections && !cchildren.isNil then
        let all_objects := gather_all_objects_recursive (.mk cname chide cobjs cchildren) allowed
        if !all_objects.isEmpty then
          let r := export_fbx props plat st0 (coll_folder.join (cname ++ ".fbx")) all_objects
          ((if r.1 then 1 else 0), r.2.1, r.2.2)
        else (0, st0, [])
      else
        let direct := cobjs.filter (fun o => allowed.contains o.ty && !o.hide_viewport)
        let a :=
          if !direct.isEmpty then
            let r := export_fbx props plat st0 (coll_folder.join (cname ++ ".fbx")) direct
            ((if r.1 then (1 : Nat) else 0), r.2.1, r.2.2)
          else (0, st0, ([] : List String))
        let rc := export_collection_list props plat a.2.1 cchildren coll_folder allowed
        (a.1 + rc.1, rc.2.1, a.2.2 ++ rc.2.2)
/-- The loop over `collection.children` at the end of
`export_collection_recursive` (the two Python loops differ only in the
constant `create_subfolder` argument, which is
`props.separate_child_collections`). -/
def export_collection_list (props : Props) (plat : Bool) (st : St)
    (cl : CollList) (coll_folder : Path) (allowed : List ObjType) :
    Nat × St × List String :=
  match cl with
  | .nil => (0, st, [])
  | .cons c cs =>
    let r := export_collection_recursive props plat st c coll_folder allowed
      props.separate_child_collections
    let rest := export_collection_list props plat r.2.1 cs coll_folder allowed
    (r.1 + rest.1, rest.2.1, r.2.2 ++ rest.2.2)
end

/-- `gather_selected_by_collection(self, selected_objs)` helper: insert an
object under its collection key (`dict.setdefault(coll, []).append(obj)`;
keys compared by collection identity, i.e. by unique name). -/
def add_to_coll_map (m : List (Collection × List Obj)) (coll : Collection) (o : Obj) :
    List (Collection × List Obj) :=
  match m with
  | [] => [(coll, [o])]
  | (c, os) :: rest =>
    if c.name == coll.name then (c, os ++ [o]) :: rest
    else (c, os) :: add_to_coll_map rest coll o

/-- `gather_selected_by_collection(self, selected_objs)`: group the
selected objects by every collection they belong to
(`obj.users_collection`). -/
def gather_selected_by_collection (users_collection : Obj → List Collection)
    (selected_objs : List Obj) : List (Collection × List Obj) :=
  selected_objs.foldl
    (fun m obj => (users_collection obj).foldl (fun m coll => add_to_coll_map m coll obj) m)
    []

/-- Lookup in the collection map by collection identity (unique name). -/
def coll_map_lookup (m : List (Collection × List Obj)) (n : String) : Option (List Obj) :=
  match m with
  | [] => none
  | (c, os) :: rest => if c.name == n then some os else coll_map_lookup rest n

mutual
/-- `export_selected_as_collections(self, context, coll_map, parent_coll,
parent_dir, visited)`: returns the export count, the new state, the
visited set (threaded explicitly; Python mutates a shared set), and the
report messages. -/
def export_selected_as_collections (props : Props) (plat : Bool) (st : St)
    (coll_map : List (Collection × List Obj)) (parent_coll : Collection)
    (parent_dir : Path) (visited : List String) : Nat × St × List String × List String :=
  match parent_coll with
  | .mk cname _chide _cobjs cchildren =>
    if visited.contains cname then (0, st, visited, [])
    else
      let visited1 := visited ++ [cname]
      let coll_folder := parent_dir.join cname
      let r := ensure_directory_exists plat st.world coll_folder
      if r.1.1 = false then (0, st, visited1, [r.1.2])
      else
        let st0 : St := { st with world := r.2 }
        let a :=
          match coll_map_lookup coll_map cname with
          | some objs =>
            if !objs.isEmpty then
              let e := export_fbx props plat st0 (coll_folder.join (cname ++ ".fbx")) objs
              ((if e.1 then (1 : Nat) else 0), e.2.1, e.2.2)
            else (0, st0, [])
          | none => (0, st0, ([] : List String))
        let rc := export_selected_children props plat a.2.1 coll_map cchildren coll_folder visited1
        (a.1 + rc.1, rc.2.1, rc.2.2.1, a.2.2 ++ rc.2.2.2)
/-- The loop of `export_selected_as_collections` over child collections,
recursing only into children that appear in the collection map. -/
def export_selected_children (props : Props) (plat : Bool) (st : St)
    (coll_map : List (Collection × List Obj)) (cl : CollList) (coll_folder : Path)
    (visited : List String) : Nat × St × List String × List String :=
  match cl with
  | .nil => (0, st, visited, [])
  | .cons c cs =>
    let r :=
      if coll_map.any (fun e => e.1.name == c.name) then
        export_selected_as_collections props plat st coll_map c coll_folder visited
      else (0, st, visited, [])
    let rest := export_selected_children props plat r.2.1 coll_map cs coll_folder r.2.2.1
    (r.1 + rest.1, rest.2.1, rest.2.2.1, r.2.2.2 ++ rest.2.2.2)
end

/-- The loop of `execute` over the top-level group collections in the
"single mesh + separate folders" branch, with the shared visited set. -/
def run_selected_tops (props : Props) (plat : Bool) (st : St)
    (coll_map : List (Collection × List Obj)) (tops : List Collection)
    (directory : Path) (visited : List String) : Nat × St × List String × List String :=
  match tops with
  | [] => (0, st, visited, [])
  | c :: cs =>
    let r := export_selected_as_collections props plat st coll_map c directory visited
    let rest := run_selected_tops props plat r.2.1 coll_map cs directory r.2.2.1
    (r.1 + rest.1, rest.2.1, rest.2.2.1, r.2.2.2 ++ rest.2.2.2)

/-- `export_selected_each_object(self, context, selected_objs, directory)`:
one job per object, optionally each in its own subfolder; a failed
subfolder creation reports and continues with the next object. -/
def export_selected_each_object (props : Props) (plat : Bool) (st : St)
    (selected_objs : List Obj) (directory : Path) : Nat × St × List String :=
  match selected_objs with
  | [] => (0, st, [])
  | obj :: rest =>
    let r :=
      if props.make_separate_folders then
        let obj_folder := directory.join obj.name
        let e := ensure_directory_exists plat st.world obj_folder
        if e.1.1 = false then ((0 : Nat), st, [e.1.2])
        else
          let x := export_fbx props plat { st with world := e.2 }
            (obj_folder.join (obj.name ++ ".fbx")) [obj]
          ((if x.1 then (1 : Nat) else 0), x.2.1, x.2.2)
      else
        let x := export_fbx props plat st (directory.join (obj.name ++ ".fbx")) [obj]
        ((if x.1 then (1 : Nat) else 0), x.2.1, x.2.2)
    let rs := export_selected_each_object props plat r.2.1 rest directory
    (r.1 + rs.1, rs.2.1, r.2.2 ++ rs.2.2)

/-- The loop of `execute` over the valid top-level collections in
collection mode (`create_subfolder=True` for each). -/
def run_collections (props : Props) (plat : Bool) (st : St)
    (colls : List Collection) (directory : Path) (allowed : List ObjType) :
    Nat × St × List String :=
  match colls with
  | [] => (0, st, [])
  | c :: cs =>
    let r := export_collection_recursive props plat st c directory allowed true
    let rest := run_collections props plat r.2.1 cs directory allowed
    (r.1 + rest.1, rest.2.1, r.2.2 ++ rest.2.2)

/-- The read-only scene graph handed to the operator:
`context.view_layer.layer_collection.children` and the
`obj.users_collection` relation. -/
structure Scene where
  roots : LayerList
  users_collection : Obj → List Collection

inductive ExecStatus where
  | FINISHED | CANCELLED
deriving DecidableEq, Repr

/-- Result of one `execute` run: the operator status, the final state, the
report messages, and whether the exported-files dialog (Summary Presenter)
was invoked. -/
structure ExecResult where
  status : ExecStatus
  st : St
  log : List String
  presenter : Bool

/-- The restoration block at the end of `execute`: deselect all, re-select
the snapshot, and re-assign the active object only when the snapshot had
one (`if orig_active:`). -/
def restore_selection (st : St) (orig_sel : List Obj) (orig_active : Option Obj) : St :=
  { st with
    selected := orig_sel
    active := match orig_active with | some a => some a | none => st.active }

/-- The common tail of every non-cancelled `execute` path: restore the
selection snapshot, then invoke the Summary Presenter iff the run-scoped
exported-files list is nonempty. -/
def finish_run (st : St) (log : List String) (orig_sel : List Obj)
    (orig_active : Option Obj) : ExecResult :=
  let stR := restore_selection st orig_sel orig_active
  ⟨.FINISHED, stR, log, decide (0 < stR.exported_files.length)⟩

/-- `execute(self, context)` of `VRSE3D_OT_export_selected`, with the
already-resolved absolute target `directory`. -/
def execute (props : Props) (plat : Bool) (scene : Scene) (directory : Path)
    (st0 : St) : ExecResult :=
  let st1 : St := { st0 with exported_files := [] }
  let rchk := check_path_exists st1.world.ex plat directory.dirname
  if rchk.1 = false then ⟨.CANCELLED, st1, [rchk.2], false⟩
  else
    let rens := ensure_directory_exists plat st1.world directory
    if rens.1.1 = false then ⟨.CANCELLED, st1, [rens.1.2], false⟩
    else
      let st2 : St := { st1 with world := rens.2 }
      let orig_sel := st2.selected
      let orig_active := st2.active
      let allowed := get_object_types props
      match props.export_mode with
      | .COLLECTIONS =>
        let top_colls := gather_top_level_collections scene.roots
        let valid_colls := top_colls.filter (fun c =>
          !((c.all_objects.filter (fun o => allowed.contains o.ty && !o.hide_viewport)).isEmpty))
        let r := run_collections props plat st2 valid_colls directory allowed
        finish_run r.2.1
          (r.2.2 ++ ["Exported " ++ toString r.1 ++ " FBX files (Collections mode)."])
          orig_sel orig_active
      | .SELECTED =>
        let sel_objects := st2.selected.filter (fun o => allowed.contains o.ty)
        if sel_objects.isEmpty then
          ⟨.CANCELLED, st2, ["No valid selected objects to export"], false⟩
        else if props.as_single_mesh && props.make_separate_folders then
          let coll_map := gather_selected_by_collection scene.users_collection sel_objects
          let all_colls := coll_map.map (fun e => e.1)
          let top_level := all_colls.filter (fun c =>
            !(all_colls.any (fun other =>
              !(other.name == c.name) && other.child_names.contains c.name)))
          let r := run_selected_tops props plat st2 coll_map top_level directory []
          finish_run r.2.1
            (r.2.2.2 ++
              ["Exported " ++ toString r.1 ++ " FBX files (Single Mesh + Separate Folders)."])
            orig_sel orig_active
        else if props.as_single_mesh then
          let export_name :=
            match orig_active with
            | some a =>
              match scene.users_collection a with
              | c :: _ => c.name
              | [] => "combined_export"
            | none => "combined_export"
          let r := export_fbx props plat st2 (directory.join (export_name ++ ".fbx")) sel_objects
          finish_run r.2.1
            (r.2.2 ++ ["Exported single FBX with all selected objects: " ++ export_name ++ ".fbx"])
            orig_sel orig_active
        else
          let r := export_selected_each_object props plat st2 sel_objects directory
          finish_run r.2.1
            (r.2.2 ++ ["Exported " ++ toString r.1 ++ " objects separately."])
            orig_sel orig_active

/-! ## Concrete scenes, worlds and configurations used as test inputs -/

/-- A default configuration record (the add-on's property defaults, with
collection mode). -/
def cfgBase : Props :=
  { export_mode := .COLLECTIONS
    separate_child_collections := false
    combine_nested_collections := false
    as_single_mesh := true
    make_separate_folders := false
    export_empty := false
    export_camera := false
    export_lamp := false
    export_armature := false
    export_mesh := true
    export_other := false
    embed_textures := false
    export_animations := false
    export_smoothing := .OFF
    apply_unit := true
    use_space_transform := true
    apply_transform := true
    apply_modifiers := true
    axis_forward := "-Z"
    axis_up := "Y"
    apply_scale_options := "FBX_SCALE_ALL" }

/-- Collection mode with "Make folders for Child Collections" on. -/
def cfgC2 : Props := { cfgBase with separate_child_collections := true }

def cubeObj : Obj := ⟨"Cube", .MESH, false⟩
def sphereObj : Obj := ⟨"Sphere", .MESH, false⟩

def nestedColl : Collection := .mk "Nested" false [sphereObj] .nil
def propsColl : Collection := .mk "Props" false [cubeObj] (.cons nestedColl .nil)

/-- View-layer roots of the `Props`/`Nested` scenario, everything visible. -/
def sceneRoots : LayerList :=
  .cons (.mk false propsColl (.cons (.mk false nestedColl .nil) .nil)) .nil

def sceneC2 : Scene := ⟨sceneRoots, fun _ => []⟩

/-- The export root `<root>`; only the filesystem base exists initially. -/
def rootDir : Path := ⟨"", ["root"]⟩

/-- A world where only the filesystem base exists, every directory may be
created and every export succeeds. -/
def worldAllOk : World := ⟨fun q => q.comps.isEmpty, fun _ => true, fun _ => true⟩

/-- A world where only the filesystem base exists and no directory may be
created (`os.makedirs` raises). -/
def worldNoCreate : World := ⟨fun q => q.comps.isEmpty, fun _ => false, fun _ => true⟩

/-- Run state for the scenario: nothing selected, no active object, both
meshes in the view layer. -/
def stC2 : St := ⟨worldAllOk, [], [], none, [cubeObj, sphereObj], []⟩

/-- Run state over the creation-refusing world. -/
def stFail : St := ⟨worldNoCreate, [], [], none, [cubeObj, sphereObj], []⟩

/-- Run state of the scenario with Cube active at the start. -/
def stC8 : St := { stC2 with active := some cubeObj }

/-- The filesystem base path. -/
def baseDir : Path := ⟨"", []⟩

/-- A file path whose directory does not exist and cannot be created. -/
def fpFail : Path := ⟨"", ["f.fbx", "missing"]⟩

/-- The existence oracle of a filesystem where only the base exists. -/
def exRootOnly : Path → Bool := fun q => q.comps.isEmpty

/-- A two-component path over `exRootOnly`, nothing of it existing. -/
def pDeep : Path := ⟨"", ["a", "b"]⟩

/-- All-permissive world used for the idempotence witness. -/
def wdAllOk : World := worldAllOk

/-- A directory to create under the existing base. -/
def pTarget : Path := ⟨"", ["target"]⟩

def collA : Collection := .mk "A" false [] .nil
def collB : Collection := .mk "B" false [] .nil

/-- A view layer with two independent visible root collections. -/
def rootsPair : LayerList :=
  .cons (.mk false collA .nil) (.cons (.mk false collB .nil) .nil)

/-! ## Theorems -/

/-- If the path's Boolean existence is `true` the first branch answers. -/
theorem checkPathAux_of_ex (ex : Path → Bool) (w : Bool) (d : String)
    (cs : List String) (h : ex ⟨d, cs⟩ = true) :
    checkPathAux ex w d cs = (true, "") := by
  cases cs <;> simp [checkPathAux, h]

/-- The Windows drive branch of `check_path_exists`. -/
theorem checkPathAux_drive (ex : Path → Bool) (w : Bool) (d : String)
    (cs : List String) (h : ex ⟨d, cs⟩ = false)
    (h2 : (w && !(d == "") && !(ex ⟨d, []⟩)) = true) :
    checkPathAux ex w d cs = (false, driveMsg d) := by
  cases cs with
  | nil =>
    rw [h] at h2
    simp at h2
    simp [checkPathAux, h, h2]
  | cons c tl => simp [checkPathAux, h, h2]

/-- The Boolean component of the `check_path_exists` recursion equals the
existence of the queried path itself. -/
theorem checkPathAux_fst (ex : Path → Bool) (w : Bool) (d : String) :
    ∀ cs : List String, (checkPathAux ex w d cs).1 = ex ⟨d, cs⟩ := by
  intro cs
  induction cs with
  | nil =>
    simp only [checkPathAux]
    split
    · next hx => exact hx.symm
    · next hx =>
      rw [Bool.not_eq_true] at hx
      split
      · exact hx.symm
      · exact hx.symm
  | cons c tl ih =>
    simp only [checkPathAux]
    split
    · next hx => exact hx.symm
    · next hx =>
      rw [Bool.not_eq_true] at hx
      split
      · exact hx.symm
      · split
        · next hg =>
          rw [ih]
          have h2 : Path.truthy ⟨d, tl⟩ = true ∧ ex ⟨d, tl⟩ = false := by simpa using hg
          rw [h2.2, hx]
        · exact hx.symm

/-- The Boolean component of `check_path_exists` equals existence of the
path. -/
theorem check_path_exists_fst (ex : Path → Bool) (w : Bool) (p : Path) :
    (check_path_exists ex w p).1 = ex p := by
  cases p with
  | mk d cs => exact checkPathAux_fst ex w d cs

/-- For a nonexistent path (outside the drive branch), the recursion
reaches the topmost nonexistent ancestor — the suffix of the components
whose own parent either exists or is not truthy — and names it in the
failure message. -/
theorem checkPathAux_not_ex (ex : Path → Bool) (w : Bool) (d : String)
    (hw : w = true ∨ d = "")
    (hdr : (w && !(d == "") && !(ex ⟨d, []⟩)) = false) :
    ∀ cs : List String, ex ⟨d, cs⟩ = false →
      ∃ r : Path, r.drive = d ∧ r.comps <:+ cs ∧ ex r = false ∧
        (r.dirname.truthy = false ∨ ex r.dirname = true) ∧
        checkPathAux ex w d cs = (false, pathMsg r) := by
  intro cs
  induction cs with
  | nil =>
    intro hne
    have hd : d = "" := by
      rcases hw with hw1 | hd
      · by_contra hd
        have h1 : (d == "") = false := beq_eq_false_iff_ne.mpr hd
        rw [hw1, hne, h1] at hdr
        simp at hdr
      · exact hd
    subst hd
    refine ⟨⟨"", []⟩, rfl, List.suffix_refl _, hne, Or.inl (by decide), ?_⟩
    simp [checkPathAux, hne, hdr]
  | cons c tl ih =>
    intro hne
    by_cases hg : (Path.truthy ⟨d, tl⟩ && !(ex ⟨d, tl⟩)) = true
    · have hex : ex ⟨d, tl⟩ = false := by
        have h' : Path.truthy ⟨d, tl⟩ = true ∧ ex ⟨d, tl⟩ = false := by simpa using hg
        exact h'.2
      obtain ⟨r, h1, h2, h3, h4, h5⟩ := ih hex
      refine ⟨r, h1, h2.trans (List.suffix_cons c tl), h3, h4, ?_⟩
      simp [checkPathAux, hne, hdr, hg, h5]
    · refine ⟨⟨d, c :: tl⟩, rfl, List.suffix_refl _, hne, ?_, ?_⟩
      · cases ht : Path.truthy ⟨d, tl⟩ with
        | false => exact Or.inl ht
        | true =>
          right
          cases hx : ex ⟨d, tl⟩ with
          | true => exact hx
          | false => exact absurd (by rw [ht, hx]; rfl) hg
      · simp [checkPathAux, hne, hdr, hg]

/-- C10: the Boolean component of `check_path_exists(path)` is true iff
the path itself exists; the upward recursion only selects the failure
message and never turns a nonexistent path into a `true` answer. -/
theorem check_path_exists_bool_iff_exists (ex : Path → Bool) (w : Bool) (p : Path) :
    (check_path_exists ex w p).1 = ex p :=
  check_path_exists_fst ex w p

/-- C3: `check_path_exists` returns `(true, "")` immediately for an
existing path; on Windows a nonexistent path whose nonempty drive is also
missing fails fast with the drive message; otherwise it climbs to the
topmost nonexistent ancestor (the child of the nearest existing ancestor,
or the base when none exists) and returns false with the message naming
that ancestor. -/
theorem check_path_exists_spec (ex : Path → Bool) (w : Bool) (p : Path)
    (hw : w = true ∨ p.drive = "") :
    (ex p = true → check_path_exists ex w p = (true, "")) ∧
    (ex p = false → w = true → p.drive ≠ "" → ex ⟨p.drive, []⟩ = false →
      check_path_exists ex w p = (false, driveMsg p.drive)) ∧
    (ex p = false → (w && !(p.drive == "") && !(ex ⟨p.drive, []⟩)) = false →
      ∃ r : Path, r.drive = p.drive ∧ r.comps <:+ p.comps ∧ ex r = false ∧
        (r.dirname.truthy = false ∨ ex r.dirname = true) ∧
        check_path_exists ex w p = (false, pathMsg r)) := by
  obtain ⟨d, cs⟩ := p
  refine ⟨fun h => checkPathAux_of_ex ex w d cs h, fun h hw2 hd hdrv => ?_, fun h hdr => checkPathAux_not_ex ex w d hw hdr cs h⟩
  refine checkPathAux_drive ex w d cs h ?_
  have h1 : (d == "") = false := beq_eq_false_iff_ne.mpr hd
  rw [hw2, h1, hdrv]
  rfl

/-- Witness for C3 at a concrete filesystem: only the base exists and the
queried path has two missing components. -/
theorem check_path_exists_spec_witness :
    ∃ r : Path, r.drive = pDeep.drive ∧ r.comps <:+ pDeep.comps ∧ exRootOnly r = false ∧
      (r.dirname.truthy = false ∨ exRootOnly r.dirname = true) ∧
      check_path_exists exRootOnly false pDeep = (false, pathMsg r) :=
  (check_path_exists_spec exRootOnly false pDeep (Or.inr rfl)).2.2 (by decide) (by decide)

/-- `makedirs` makes the directory itself exist. -/
theorem makedirs_ex_self (wd : World) (p : Path) : (makedirs wd p).ex p = true := by
  simp [makedirs, List.isSuffixOf_iff_suffix]

/-- `makedirs` makes the parent directory exist. -/
theorem makedirs_ex_dirname (wd : World) (p : Path) : (makedirs wd p).ex p.dirname = true := by
  simp [makedirs, Path.dirname, List.isSuffixOf_iff_suffix, List.tail_suffix]

/-- C4: `ensure_directory_exists` is idempotent for a path whose parent is
reachable: a pre-existing directory is success with no message and no
state change, and whenever the first call succeeds the immediate second
call returns `(true, "")`. -/
theorem ensure_directory_idempotent (plat : Bool) (wd : World) (p : Path)
    (hpar : (check_path_exists wd.ex plat p.dirname).1 = true) :
    (wd.ex p = true → ensure_directory_exists plat wd p = ((true, ""), wd)) ∧
    ((ensure_directory_exists plat wd p).1.1 = true →
      (ensure_directory_exists plat (ensure_directory_exists plat wd p).2 p).1 = (true, "")) := by
  constructor
  · intro hx
    simp [ensure_directory_exists, hpar, hx]
  · intro h1
    by_cases hx : wd.ex p = true
    · simp [ensure_directory_exists, hpar, hx]
    · rw [Bool.not_eq_true] at hx
      by_cases hp : wd.permitted p = true
      · have hw1 : (ensure_directory_exists plat wd p).2 = makedirs wd p := by
          simp [ensure_directory_exists, hpar, hx, hp]
        rw [hw1]
        have hpar2 : (check_path_exists (makedirs wd p).ex plat p.dirname).1 = true := by
          rw [check_path_exists_fst]
          exact makedirs_ex_dirname wd p
        simp [ensure_directory_exists, hpar2, makedirs_ex_self]
      · rw [Bool.not_eq_true] at hp
        simp [ensure_directory_exists, hpar, hx, hp] at h1

/-- Witness for C4: creating a fresh directory under the existing base
succeeds, and the immediate second call succeeds with no message. -/
theorem ensure_directory_idempotent_witness :
    (ensure_directory_exists false wdAllOk pTarget).1.1 = true ∧
    (ensure_directory_exists false (ensure_directory_exists false wdAllOk pTarget).2 pTarget).1 = (true, "") :=
  ⟨by decide, (ensure_directory_idempotent false wdAllOk pTarget (by decide)).2 (by decide)⟩

/-- If `(a, b)` is an edge of the filtered graph among the children of a
node named `pn`, then walking those children with parent `pn` records `b`
with parent `pn` in `child_to_parent`. -/
theorem visibleChildEdges_recorded (pn a b : String) :
    ∀ ls : LayerList, (a, b) ∈ visibleChildEdges pn ls →
      (b, pn) ∈ (recurse_layer_list ls (some pn)).2
  | .nil => by simp [visibleChildEdges]
  | .cons lc rest => by
    intro h
    simp only [visibleChildEdges] at h
    rcases List.mem_append.mp h with h1 | h2
    · cases lc with
      | mk h0 c0 ch0 =>
        simp only [recurse_layer_list, recurse_layer_coll, List.mem_append]
        left
        cases hv : layerVisible (.mk h0 c0 ch0) with
        | false =>
          rw [hv] at h1
          simp at h1
        | true =>
          rw [hv] at h1
          simp only [if_true] at h1
          have hb : a = pn ∧ b = (LayerColl.mk h0 c0 ch0).collection.name := by
            simpa using h1
          have hv2 : (!h0 && !c0.hide_viewport) = true := by
            simpa [layerVisible, LayerColl.hide_viewport, LayerColl.collection] using hv
          rw [hv2]
          simp only [List.mem_append, if_true]
          left
          simp [hb.2, LayerColl.collection, Collection.name]
    · have hrec := visibleChildEdges_recorded pn a b rest h2
      simp only [recurse_layer_list, List.mem_append]
      exact Or.inr hrec

mutual
/-- Every filtered-graph edge below a node means its child endpoint got a
`child_to_parent` entry during the walk of that node, with any parent
argument. -/
theorem edge_recorded_tree (lc : LayerColl) (parent : Option String) (a b : String)
    (h : (a, b) ∈ filteredEdges lc) :
    ∃ q, (b, q) ∈ (recurse_layer_coll lc parent).2 := by
  cases lc with
  | mk h0 c0 ch0 =>
    simp only [filteredEdges] at h
    rcases List.mem_append.mp h with h1 | h2
    · cases hv : (!h0 && !c0.hide_viewport) with
      | false =>
        rw [hv] at h1
        simp at h1
      | true =>
        rw [hv] at h1
        simp only [if_true] at h1
        have hrec := visibleChildEdges_recorded c0.name a b ch0 h1
        refine ⟨c0.name, ?_⟩
        simp only [recurse_layer_coll, List.mem_append]
        exact Or.inr hrec
    · obtain ⟨q, hq⟩ := edge_recorded_list ch0 (some c0.name) a b h2
      refine ⟨q, ?_⟩
      simp only [recurse_layer_coll, List.mem_append]
      exact Or.inr hq
/-- List version of `edge_recorded_tree`. -/
theorem edge_recorded_list (ls : LayerList) (parent : Option String) (a b : String)
    (h : (a, b) ∈ edgesOfList ls) :
    ∃ q, (b, q) ∈ (recurse_layer_list ls parent).2 := by
  cases ls with
  | nil => simp [edgesOfList] at h
  | cons lc rest =>
    simp only [edgesOfList] at h
    rcases List.mem_append.mp h with h1 | h2
    · obtain ⟨q, hq⟩ := edge_recorded_tree lc parent a b h1
      refine ⟨q, ?_⟩
      simp only [recurse_layer_list, List.mem_append]
      exact Or.inl hq
    · obtain ⟨q, hq⟩ := edge_recorded_list rest parent a b h2
      refine ⟨q, ?_⟩
      simp only [recurse_layer_list, List.mem_append]
      exact Or.inr hq
end

/-- Members of `gather_top_level_collections` have no recorded parent. -/
theorem mem_gather_no_parent (roots : LayerList) (x : Collection)
    (hx : x ∈ gather_top_level_collections roots) :
    ∀ q, (x.name, q) ∉ (recurse_layer_list roots none).2 := by
  intro q hq
  unfold gather_top_level_collections at hx
  rw [List.mem_filter] at hx
  have h2 : ((recurse_layer_list roots none).2.any (fun e => e.1 == x.name)) = false := by
    have := hx.2
    simpa using this
  rw [List.any_eq_false] at h2
  exact absurd (beq_self_eq_true x.name) (by simpa using h2 (x.name, q) hq)

/-- C1: no collection returned by `gather_top_level_collections` is a
descendant of another returned collection in the visibility-filtered
collection graph: every returned collection has no recorded parent
anywhere in the layer-hierarchy walk, hence no incoming filtered edge. -/
theorem top_level_collections_no_descendant (roots : LayerList) (x y : Collection)
    (hx : x ∈ gather_top_level_collections roots)
    (_hy : y ∈ gather_top_level_collections roots) :
    (∀ q, (x.name, q) ∉ (recurse_layer_list roots none).2) ∧
    ¬ Relation.TransGen (descEdge roots) y.name x.name := by
  refine ⟨mem_gather_no_parent roots x hx, ?_⟩
  intro htr
  have hlast : ∃ z, descEdge roots z x.name := by
    cases htr with
    | single h => exact ⟨y.name, h⟩
    | tail h1 h2 => exact ⟨_, h2⟩
  obtain ⟨z, hz⟩ := hlast
  obtain ⟨q, hq⟩ := edge_recorded_list roots none z x.name hz
  exact mem_gather_no_parent roots x hx q hq

/-- Witness for C1: a two-root forest whose both members are returned. -/
theorem top_level_collections_no_descendant_witness :
    collA ∈ gather_top_level_collections rootsPair ∧
    collB ∈ gather_top_level_collections rootsPair ∧
    ((∀ q, (collA.name, q) ∉ (recurse_layer_list rootsPair none).2) ∧
     ¬ Relation.TransGen (descEdge rootsPair) collB.name collA.name) := by
  have hx : collA ∈ gather_top_level_collections rootsPair := by
    rw [show gather_top_level_collections rootsPair = [collA, collB] from rfl]
    exact List.mem_cons_self _ _
  have hy : collB ∈ gather_top_level_collections rootsPair := by
    rw [show gather_top_level_collections rootsPair = [collA, collB] from rfl]
    exact List.mem_cons_of_mem _ (List.mem_cons_self _ _)
  exact ⟨hx, hy, top_level_collections_no_descendant rootsPair collA collB hx hy⟩

/-- C5: `export_fbx` with an empty object list is a strict no-op: it
returns false, performs no filesystem mutation, appends no exported-file
record and reports nothing. -/
theorem export_fbx_empty_no_op (props : Props) (plat : Bool) (st : St) (filepath : Path) :
    export_fbx props plat st filepath [] = (false, st, []) := rfl

/-- C6 counterexample: with "export animations" off, the exporter is still
called with bone-deformation-only baking enabled
(`use_armature_deform_only=True` is a constant of the call), so that
parameter is not controlled by the flag. -/
theorem deform_only_not_flag_controlled :
    (export_fbx_params cfgBase).use_armature_deform_only = true ∧
    cfgBase.export_animations = false :=
  ⟨rfl, rfl⟩

/-- C6 amended: animation baking, all-bone baking and all-action baking
all mirror the single "export animations" flag; bone-deformation-only
baking is unconditionally enabled (a constant, not configurable); and the
object-kind filter contains ARMATURE exactly when the armature flag or the
export-animations flag is set. -/
theorem export_params_animation_flags (props : Props) :
    (export_fbx_params props).bake_anim = props.export_animations ∧
    (export_fbx_params props).bake_anim_use_all_bones = props.export_animations ∧
    (export_fbx_params props).bake_anim_use_all_actions = props.export_animations ∧
    (export_fbx_params props).use_armature_deform_only = true ∧
    (export_fbx_params props).object_types.contains ObjType.ARMATURE
      = (props.export_armature || props.export_animations) := by
  refine ⟨rfl, rfl, rfl, rfl, ?_⟩
  obtain ⟨mode, sc, cn, sm, mf, ee, ec, el, ea, em, eo, et, an, smo, au, ust, atr, amo, af, aup, aso⟩ := props
  cases ee <;> cases ec <;> cases el <;> cases ea <;> cases em <;> cases eo <;> cases an <;> rfl

/-- C2: in collection mode with "separate child folders" on and "combine
nested" off, the `Props`/`Nested` scene produces exactly two exporter
invocations: `<root>/Props/Props.fbx` with Cube and
`<root>/Props/Nested/Nested.fbx` with Sphere. -/
theorem collection_mode_nested_scenario :
    (execute cfgC2 false sceneC2 rootDir stC2).st.trace =
      [((rootDir.join "Props").join "Props.fbx", [cubeObj], true),
       (((rootDir.join "Props").join "Nested").join "Nested.fbx", [sphereObj], true)] := by
  decide

/-- The exported-file record bookkeeping of one `export_fbx` call. -/
theorem export_fbx_exported_files (props : Props) (plat : Bool) (st : St)
    (fp : Path) (objs : List Obj) :
    (export_fbx props plat st fp objs).2.1.exported_files
      = if (export_fbx props plat st fp objs).1 then st.exported_files ++ [(fp.basename, fp)]
        else st.exported_files := by
  by_cases h0 : objs.isEmpty = true
  · simp [export_fbx, h0]
  · by_cases h1 : (ensure_directory_exists plat st.world fp.dirname).1.1 = false
    · simp [export_fbx, h0, h1]
    · by_cases h2 : (ensure_directory_exists plat st.world fp.dirname).2.exportOk fp = true
      · simp [export_fbx, h0, h1, h2]
      · simp [export_fbx, h0, h1, h2]

/-- C7: a directory-creation failure is job-local: `export_fbx` aborts
with the failure reported and the state untouched; a collection whose
subfolder cannot be prepared contributes count 0, its report, and no state
change; and the run over the remaining top-level collections is exactly the
run that would have happened without the failing collection, with the
failure message prepended to the reports. -/
theorem dir_creation_failure_job_local (props : Props) (plat : Bool) (st : St)
    (fp : Path) (objs : List Obj) (c : Collection) (cs : List Collection)
    (directory : Path) (allowed : List ObjType)
    (hobjs : objs ≠ [])
    (hfp : (ensure_directory_exists plat st.world fp.dirname).1.1 = false)
    (hc : (ensure_directory_exists plat st.world (directory.join c.name)).1.1 = false) :
    export_fbx props plat st fp objs =
      (false, st, [(ensure_directory_exists plat st.world fp.dirname).1.2]) ∧
    export_collection_recursive props plat st c directory allowed true =
      (0, st, [(ensure_directory_exists plat st.world (directory.join c.name)).1.2]) ∧
    run_collections props plat st (c :: cs) directory allowed =
      ((run_collections props plat st cs directory allowed).1,
       (run_collections props plat st cs directory allowed).2.1,
       (ensure_directory_exists plat st.world (directory.join c.name)).1.2 ::
         (run_collections props plat st cs directory allowed).2.2) := by
  have h1 : export_fbx props plat st fp objs =
      (false, st, [(ensure_directory_exists plat st.world fp.dirname).1.2]) := by
    cases objs with
    | nil => exact absurd rfl hobjs
    | cons o os => simp [export_fbx, hfp]
  have h2 : export_collection_recursive props plat st c directory allowed true =
      (0, st, [(ensure_directory_exists plat st.world (directory.join c.name)).1.2]) := by
    cases c with
    | mk cn ch co cch =>
      simp only [Collection.name] at hc ⊢
      simp [export_collection_recursive, hc]
  refine ⟨h1, h2, ?_⟩
  simp only [run_collections]
  rw [h2]
  simp

/-- Witness for C7 at a creation-refusing filesystem. -/
theorem dir_creation_failure_job_local_witness :
    export_fbx cfgBase false stFail fpFail [cubeObj] =
      (false, stFail, [(ensure_directory_exists false stFail.world fpFail.dirname).1.2]) ∧
    export_collection_recursive cfgBase false stFail propsColl baseDir [ObjType.MESH] true =
      (0, stFail, [(ensure_directory_exists false stFail.world (baseDir.join propsColl.name)).1.2]) ∧
    run_collections cfgBase false stFail [propsColl] baseDir [ObjType.MESH] =
      ((run_collections cfgBase false stFail [] baseDir [ObjType.MESH]).1,
       (run_collections cfgBase false stFail [] baseDir [ObjType.MESH]).2.1,
       (ensure_directory_exists false stFail.world (baseDir.join propsColl.name)).1.2 ::
         (run_collections cfgBase false stFail [] baseDir [ObjType.MESH]).2.2) :=
  dir_creation_failure_job_local cfgBase false stFail fpFail [cubeObj] propsColl []
    baseDir [ObjType.MESH] (by decide) (by decide) (by decide)

/-- C8 counterexample: a run that starts with no active object does not
restore the active object to none — the last exported object stays
active, because the restoration is guarded by `if orig_active:`. -/
theorem active_restore_counterexample :
    stC2.active = none ∧
    (execute cfgC2 false sceneC2 rootDir stC2).st.active = some sphereObj := by
  constructor
  · rfl
  · decide

/-- C8 amended: at the end of every run the selected-object set equals the
snapshot taken at the start (also on the cancellation paths, which mutate
nothing), and the active object is restored exactly whenever one was
active at snapshot time; only a none snapshot active can be replaced. -/
theorem execute_restores_selection (props : Props) (plat : Bool) (scene : Scene)
    (directory : Path) (st0 : St) :
    (execute props plat scene directory st0).st.selected = st0.selected ∧
    (∀ a, st0.active = some a → (execute props plat scene directory st0).st.active = some a) := by
  constructor
  · unfold execute
    dsimp only
    split
    · rfl
    · split
      · rfl
      · split
        · rfl
        · split
          · rfl
          · split
            · rfl
            · split
              · rfl
              · rfl
  · intro a ha
    unfold execute
    dsimp only
    repeat' split
    all_goals first
      | exact ha
      | simp [finish_run, restore_selection, ha]

/-- Witness for C8's amendment: a run that starts with Cube active ends
with Cube active and the empty selection restored. -/
theorem execute_restores_selection_witness :
    (execute cfgC2 false sceneC2 rootDir stC8).st.selected = stC8.selected ∧
    (execute cfgC2 false sceneC2 rootDir stC8).st.active = some cubeObj :=
  ⟨(execute_restores_selection cfgC2 false sceneC2 rootDir stC8).1,
   (execute_restores_selection cfgC2 false sceneC2 rootDir stC8).2 cubeObj rfl⟩

/-- C9: the exported-file list is run-scoped: the initial list is cleared
so the run result does not depend on it; each successful `export_fbx` call
appends exactly one `(basename, path)` record and a failed call appends
none; and the Summary Presenter is invoked iff the final list is
nonempty. -/
theorem exported_files_lifecycle (props : Props) (plat : Bool) (scene : Scene)
    (directory : Path) (st0 : St) (l : List (String × Path)) (fp : Path) (objs : List Obj) :
    (execute props plat scene directory { st0 with exported_files := l } =
      execute props plat scene directory st0) ∧
    ((export_fbx props plat st0 fp objs).1 = true →
      (export_fbx props plat st0 fp objs).2.1.exported_files
        = st0.exported_files ++ [(fp.basename, fp)]) ∧
    ((export_fbx props plat st0 fp objs).1 = false →
      (export_fbx props plat st0 fp objs).2.1.exported_files = st0.exported_files) ∧
    ((execute props plat scene directory st0).presenter = true ↔
      (execute props plat scene directory st0).st.exported_files ≠ []) := by
  refine ⟨rfl, ?_, ?_, ?_⟩
  · intro h
    rw [export_fbx_exported_files, h]
    rfl
  · intro h
    rw [export_fbx_exported_files, h]
    rfl
  · unfold execute
    dsimp only
    repeat' split
    all_goals first
      | rfl
      | decide
      | simp [finish_run, restore_selection, List.length_pos]

/-- Witness for C9: a successful concrete export appends exactly its
record. -/
theorem exported_files_lifecycle_witness :
    (export_fbx cfgBase false stC2 (rootDir.join "X.fbx") [cubeObj]).1 = true ∧
    (export_fbx cfgBase false stC2 (rootDir.join "X.fbx") [cubeObj]).2.1.exported_files
      = stC2.exported_files ++ [((rootDir.join "X.fbx").basename, rootDir.join "X.fbx")] :=
  ⟨by decide,
   (exported_files_lifecycle cfgBase false sceneC2 rootDir stC2 [] (rootDir.join "X.fbx")
     [cubeObj]).2.1 (by decide)⟩

end VRseFbx
